import Mathlib

/-!
Verification of the Loop Ledger normalization / date-range / aggregation core.

This file gives a shallow embedding of the TypeScript source:

* `src/supabaseClient.ts` (= `src/lib/dateRange.ts`): `parseDateLocal`,
  `getDateRange`, `isWithinRange`;
* `src/lib/storage.ts`: `loopFromDb`, `expenseFromDb`;
* `src/pages/Income.tsx`: `num`, `normalizeLoop`, `summarize`, `pct`;
* `src/pages/Insights.tsx`: `toDate`, `timeToMinutes`, the `filteredLoops`
  date filter and the `totals` reducer;
* `src/pages/Loops.tsx`: the `filteredLoops` date filter,
  `computeRoundTripMilesFlexible` and the pure part of `onSave`;
* `src/pages/Home.tsx`: `rangeStart` and the `filteredLoops` date filter;
* `src/pages/Expenses.tsx`: the `filtered` date filter.

Modelling conventions:

* JS numbers are rationals (`ℚ`); `NaN` is modelled by `Option ℚ` (`none`)
  at the points where the source can produce it.  The source never relies
  on float rounding, so `ℚ` is faithful for every property proved here.
* Instants are `Int` milliseconds since the Unix epoch (UTC).  The host's
  local time zone is an explicit parameter `tz : Int`, the offset in
  milliseconds that is ADDED to a UTC instant to obtain local time
  (UTC-5 is `tz = -18000000`).  The model has no DST transitions.
* Environment-defined date parsing (`new Date(string)` on non-ISO input)
  is a function parameter `gen`; the date-only `YYYY-MM-DD` form is
  modelled per ECMA-262 (parsed as UTC midnight).
* String scrutiny is done on `List Char` with local helpers mirroring the
  JS operations (`split`, `trim`, `toLowerCase`, `startsWith`, ...).
-/

namespace LoopLedger

/-! ## JS value model -/

/-- A JS value that can sit in a raw/legacy record field.  `undefined` is
represented by `Option JsVal = none` at the field, so `JsVal.null` is the
JS `null`. -/
inductive JsVal where
  | num (q : ℚ)
  | nan
  | str (s : String)
  | null
deriving DecidableEq, Repr

/-- `a ?? b` : nullish coalescing (`null`/`undefined` fall through). -/
def jsCoalesce (a b : Option JsVal) : Option JsVal :=
  match a with
  | none => b
  | some .null => b
  | some v => some v

/-- `a ?? b` on optional strings (a present string, even `""`, wins). -/
def strCoalesce (a : Option String) (b : String) : String :=
  match a with
  | none => b
  | some s => s

/-- JS whitespace test (ASCII subset; the data never holds exotic spaces). -/
def isJsWs (c : Char) : Bool :=
  c = ' ' || c = '\t' || c = '\n' || c = '\r'

/-- `String.prototype.trim` on a char list. -/
def jsTrim (cs : List Char) : List Char :=
  ((cs.dropWhile isJsWs).reverse.dropWhile isJsWs).reverse

/-- `String.prototype.toLowerCase` (ASCII; matches JS on ASCII data). -/
def jsLower (cs : List Char) : List Char :=
  cs.map Char.toLower

/-- Value of a list of decimal digit chars, most significant first. -/
def digitsVal (cs : List Char) : ℚ :=
  cs.foldl (fun a c => a * 10 + ((c.toNat : ℚ) - 48)) 0

def allDigits (cs : List Char) : Bool :=
  cs.all Char.isDigit

/-- Split a char list at every occurrence of `sep`
(JS `String.prototype.split(sep)` with a one-char separator). -/
def splitOnChar (sep : Char) : List Char → List (List Char)
  | [] => [[]]
  | c :: rest =>
    let r := splitOnChar sep rest
    if c = sep then [] :: r
    else
      match r with
      | h :: t => (c :: h) :: t
      | [] => [[c]]

/-- Unsigned decimal literal: digits, with at most one `'.'` and at least
one digit overall.  `none` is `NaN`. -/
def parseUnsignedDec (cs : List Char) : Option ℚ :=
  match splitOnChar '.' cs with
  | [ip] =>
    if ip ≠ [] && allDigits ip then some (digitsVal ip) else none
  | [ip, fp] =>
    if (ip ≠ [] || fp ≠ []) && allDigits ip && allDigits fp then
      some (digitsVal ip + digitsVal fp / ((10 : ℚ) ^ fp.length))
    else none
  | _ => none

/-- ECMA `ToNumber` on a string, restricted to the decimal literals the
repository ever feeds it (no hex / exponent / `Infinity` forms occur in
the data).  `none` is `NaN`; the empty (or all-whitespace) string is `0`. -/
def jsStrToNumberL (cs : List Char) : Option ℚ :=
  match jsTrim cs with
  | [] => some 0
  | '-' :: rest => (parseUnsignedDec rest).map (fun q => -q)
  | '+' :: rest => parseUnsignedDec rest
  | cs' => parseUnsignedDec cs'

def jsStrToNumber (s : String) : Option ℚ :=
  jsStrToNumberL s.toList

/-- `Number(v)` on a field value.  `none` is `NaN`. -/
def jsToNumber : Option JsVal → Option ℚ
  | none => none
  | some (.num q) => some q
  | some .nan => none
  | some .null => some 0
  | some (.str s) => jsStrToNumber s

/-- The `Number(v) || 0` idiom (also Insights' `safeNum`): `NaN` becomes
`0`, and `0 || 0 = 0`, so this is just the parse with `0` default. -/
def jsNumOr0 (v : Option JsVal) : ℚ :=
  (jsToNumber v).getD 0

/-! ## Civil calendar arithmetic

Day numbers are days since 1970-01-01 (Hinnant's civil-date algorithms,
which is also what every JS engine implements for `Date`). -/

def dayMs : Int := 86400000

/-- Day number of the civil date `(y, m, d)` with `m ∈ [1,12]`; `d` may
lie outside the month and rolls over linearly, exactly as JS `MakeDay`. -/
def daysFromCivil (y m d : Int) : Int :=
  let y2 := if m ≤ 2 then y - 1 else y
  let era := Int.fdiv y2 400
  let yoe := y2 - era * 400
  let mp := if 2 < m then m - 3 else m + 9
  let doy := Int.fdiv (153 * mp + 2) 5 + d - 1
  let doe := yoe * 365 + Int.fdiv yoe 4 - Int.fdiv yoe 100 + doy
  era * 146097 + doe - 719468

/-- Inverse of `daysFromCivil`: the civil `(y, m, d)` of a day number. -/
def civilFromDays (z : Int) : Int × Int × Int :=
  let z2 := z + 719468
  let era := Int.fdiv z2 146097
  let doe := z2 - era * 146097
  let yoe := Int.fdiv (doe - Int.fdiv doe 1460 + Int.fdiv doe 36524 - Int.fdiv doe 146096) 365
  let y := yoe + era * 400
  let doy := doe - (365 * yoe + Int.fdiv yoe 4 - Int.fdiv yoe 100)
  let mp := Int.fdiv (5 * doy + 2) 153
  let d := doy - Int.fdiv (153 * mp + 2) 5 + 1
  let m := if mp < 10 then mp + 3 else mp - 9
  (if m ≤ 2 then y + 1 else y, m, d)

/-- JS `new Date(y, mIdx, d)`-style day number: the month index `mIdx`
(0-based) rolls over into the year. -/
def mkDayNum (y mIdx d : Int) : Int :=
  daysFromCivil (y + Int.fdiv mIdx 12) (Int.emod mIdx 12 + 1) d

/-- Local day number of a UTC instant under offset `tz`. -/
def localDayNum (tz t : Int) : Int :=
  Int.fdiv (t + tz) dayMs

/-- UTC instant of local midnight on local day number `dn`. -/
def localMidnight (tz dn : Int) : Int :=
  dn * dayMs - tz

/-- `d.setHours(0,0,0,0)` : UTC instant of local midnight of `t`'s day. -/
def floorDay (tz t : Int) : Int :=
  localMidnight tz (localDayNum tz t)

/-- Local civil date of a UTC instant. -/
def localCivil (tz t : Int) : Int × Int × Int :=
  civilFromDays (localDayNum tz t)

-- Sanity: epoch and the dates used by the spec's scenarios.
example : daysFromCivil 1970 1 1 = 0 := by decide
example : daysFromCivil 2024 3 10 = 19792 := by decide
example : civilFromDays 19792 = (2024, 3, 10) := by decide
example : civilFromDays 0 = (1970, 1, 1) := by decide
example : daysFromCivil 2024 3 4 = daysFromCivil 2024 3 10 - 6 := by decide

/-! ## Dates: `parseDateLocal`, generic `new Date(string)`, ranges
(`src/supabaseClient.ts`, identical copy used as `src/lib/dateRange.ts`) -/

/-- A JS `Date` object: either a valid instant or the Invalid Date
(whose time value is `NaN`, so every `<=`/`>=` against it is false). -/
inductive JsDate where
  | valid (ms : Int)
  | invalid
deriving DecidableEq, Repr

/-- `string | Date`, the argument type of `parseDateLocal`/`isWithinRange`. -/
inductive DateLike where
  | str (s : String)
  | date (d : JsDate)
deriving DecidableEq, Repr

/-- The regex `/^\d{4}-\d{2}-\d{2}$/`. -/
def isYMDShape (cs : List Char) : Bool :=
  match cs with
  | [a, b, c, d, h1, e, f, h2, g, i] =>
    a.isDigit && b.isDigit && c.isDigit && d.isDigit && h1 = '-' &&
      e.isDigit && f.isDigit && h2 = '-' && g.isDigit && i.isDigit
  | _ => false

/-- `s.split("-").map(Number)` destructured as `[y, m, d]`, on a string
already known to match the `YYYY-MM-DD` regex (so the three components
are pure digit runs and `Number` is just their decimal value). -/
def ymdOf (cs : List Char) : Int × Int × Int :=
  match cs with
  | [a, b, c, d, _, e, f, _, g, i] =>
    (dv a * 1000 + dv b * 100 + dv c * 10 + dv d, dv e * 10 + dv f, dv g * 10 + dv i)
  | _ => (0, 0, 0)
where dv (c : Char) : Int := (c.toNat : Int) - 48

/-- The `MakeFullYear` step of the ECMA-262 `Date(y, mIdx, d)`
constructor: an integer year in `[0, 99]` is interpreted as `1900 + y`. -/
def jsCtorYear (y : Int) : Int :=
  if 0 ≤ y ∧ y ≤ 99 then 1900 + y else y

/-- UTC instant of `new Date(y, mIdx, d)` (a LOCAL calendar date, with
the constructor's two-digit-year rule applied to `y` first). -/
def localNewDate (tz y mIdx d : Int) : Int :=
  localMidnight tz (mkDayNum (jsCtorYear y) mIdx d)

/-- `parseDateLocal` (supabaseClient.ts 18-31): a `Date` passes through;
a string matching `YYYY-MM-DD` exactly is parsed as a LOCAL date via
`new Date(y, m - 1, d)`; anything else falls back to `new Date(s)`,
modelled by the environment parameter `gen`. -/
def parseDateLocal (gen : String → JsDate) (tz : Int) : DateLike → JsDate
  | .date d => d
  | .str s =>
    if isYMDShape s.toList then
      let (y, m, d) := ymdOf s.toList
      .valid (localNewDate tz y (m - 1) d)
    else gen s

/-- Days in a civil month (for ECMA-262 date-only string validation). -/
def daysInMonth (y m : Int) : Int :=
  if m = 2 then
    if Int.emod y 4 = 0 && (Int.emod y 100 ≠ 0 || Int.emod y 400 = 0) then 29 else 28
  else if m = 4 || m = 6 || m = 9 || m = 11 then 30
  else 31

/-- `new Date(string)` / `Date.parse`: per ECMA-262 a date-only
`YYYY-MM-DD` string is interpreted as UTC midnight (out-of-range
components give Invalid Date); every other form is environment-defined
(`gen`). -/
def jsNewDate (gen : String → JsDate) (s : String) : JsDate :=
  if isYMDShape s.toList then
    let (y, m, d) := ymdOf s.toList
    if 1 ≤ m ∧ m ≤ 12 ∧ 1 ≤ d ∧ d ≤ daysInMonth y m then
      .valid (daysFromCivil y m d * dayMs)
    else .invalid
  else gen s

/-- The six user-facing range keys. -/
inductive DateRangeKey where
  | D7 | D14 | D30 | MTD | YTD | ALL
deriving DecidableEq, Repr

/-- The `{start, end}` window (`null` bounds for ALL).  `stop` embeds the
source's `end` field (`end` is a Lean keyword). -/
structure DateRange where
  start : Option Int
  stop : Option Int
deriving DecidableEq, Repr

/-- `getDateRange` (supabaseClient.ts 33-56): `end` is now at
23:59:59.999 local; `start` is local midnight of today minus (N-1) days
for `7D/14D/30D`, the 1st of the month for `MTD`, Jan 1 for `YTD`. -/
def getDateRange (tz : Int) (key : DateRangeKey) (now : Int) : DateRange :=
  let stopMs := floorDay tz now + (dayMs - 1)
  let startMs := floorDay tz now
  match key with
  | .ALL => ⟨none, none⟩
  | .D7 => ⟨some (startMs - 6 * dayMs), some stopMs⟩
  | .D14 => ⟨some (startMs - 13 * dayMs), some stopMs⟩
  | .D30 => ⟨some (startMs - 29 * dayMs), some stopMs⟩
  | .MTD =>
    let (y, m, _) := localCivil tz now
    ⟨some (localMidnight tz (daysFromCivil y m 1)), some stopMs⟩
  | .YTD =>
    let (y, _, _) := localCivil tz now
    ⟨some (localMidnight tz (daysFromCivil y 1 1)), some stopMs⟩

/-- `isWithinRange` (supabaseClient.ts 58-62): a `null` bound means
everything is in range; otherwise `start <= parseDateLocal(d) <= end`,
which is false whenever the parse gives Invalid Date (`NaN` compares). -/
def isWithinRange (gen : String → JsDate) (tz : Int)
    (dateLike : DateLike) (r : DateRange) : Bool :=
  match r.start, r.stop with
  | some s, some e =>
    match parseDateLocal gen tz dateLike with
    | .valid d => s ≤ d && d ≤ e
    | .invalid => false
  | _, _ => true

/-! ## `src/lib/storage.ts`: DB row -> app object converters and cache -/

/-- The canonical in-cache loop (shape produced by `loopFromDb`; the
pages treat it as `any`, so the money fields stay `Option JsVal` and are
re-coerced by `safeNum` at every use, as in the source). -/
structure Loop where
  id : String := ""
  date : Option String := none
  course : Option String := none
  placeId : Option String := none
  loopType : Option String := none
  bagFee : Option JsVal := none
  cashTip : Option JsVal := none
  digitalTip : Option JsVal := none
  preGrat : Option JsVal := none
  mileage_miles : Option JsVal := none
  mileage_cost : Option JsVal := none
  reportTime : Option String := none
  teeTime : Option String := none
  endTime : Option String := none
  notes : Option String := none
deriving DecidableEq, Repr

/-- An `ll_loops` backend row as `loopFromDb` receives it (untyped; the
legacy single-tip columns are carried so that ignoring them is a provable
statement, not a modelling choice). -/
structure DbRow where
  id : String := ""
  user_id : String := ""
  date : Option String := none
  course : Option String := none
  course_place_id : Option String := none
  loop_type : Option String := none
  bag_fee : Option JsVal := none
  cash_tip : Option JsVal := none
  digital_tip : Option JsVal := none
  pre_grat : Option JsVal := none
  mileage_miles : Option JsVal := none
  mileage_cost : Option JsVal := none
  report_time : Option String := none
  tee_time : Option String := none
  end_time : Option String := none
  notes : Option String := none
  tip : Option JsVal := none
  tipAmount : Option JsVal := none
  tipType : Option JsVal := none
  tip_method : Option JsVal := none
deriving DecidableEq, Repr

/-- `loopFromDb` (storage.ts 48-73): camelCase conversion; every money
field is `Number(col) || 0`; nullable strings default to `""`. -/
def loopFromDb (r : DbRow) : Loop :=
  { id := r.id
    date := r.date
    course := r.course
    placeId := some (strCoalesce r.course_place_id "")
    loopType := some (strCoalesce r.loop_type "")
    bagFee := some (.num (jsNumOr0 r.bag_fee))
    cashTip := some (.num (jsNumOr0 r.cash_tip))
    digitalTip := some (.num (jsNumOr0 r.digital_tip))
    preGrat := some (.num (jsNumOr0 r.pre_grat))
    mileage_miles := some (.num (jsNumOr0 r.mileage_miles))
    mileage_cost := some (.num (jsNumOr0 r.mileage_cost))
    reportTime := some (strCoalesce r.report_time "")
    teeTime := some (strCoalesce r.tee_time "")
    endTime := some (strCoalesce r.end_time "")
    notes := some (strCoalesce r.notes "") }

/-- The in-cache expense shape (`expenseFromDb` output / Expenses page). -/
structure Expense where
  id : String := ""
  date : String := ""
  category : Option String := none
  amount : ℚ := 0
  notes : Option String := none
deriving DecidableEq, Repr

/-- An `ll_expenses` backend row. -/
structure ExpRow where
  id : String := ""
  user_id : String := ""
  date : String := ""
  category : Option String := none
  amount : Option JsVal := none
  notes : Option String := none
deriving DecidableEq, Repr

/-- `expenseFromDb` (storage.ts 103-114): `amount` is `Number(col) || 0`. -/
def expenseFromDb (r : ExpRow) : Expense :=
  { id := r.id
    date := r.date
    category := r.category
    amount := jsNumOr0 r.amount
    notes := some (strCoalesce r.notes "") }

/-! ## `src/pages/Loops.tsx`: date filter, mileage, save -/

/-- `toNumber` (Loops.tsx 136-139): `Number(v)` with `0` for non-finite. -/
def toNumber (v : String) : ℚ :=
  (jsStrToNumber v).getD 0

/-- The Past Loops date filter (Loops.tsx 219-227): under `ALL`
everything passes; otherwise a loop passes when it has NO date
(`!l?.date ||`) or its date `isWithinRange` of `getDateRange(rangeKey)`. -/
def loopPassesDateFilter (gen : String → JsDate) (tz : Int)
    (key : DateRangeKey) (now : Int) (l : Loop) : Bool :=
  let range := getDateRange tz key now
  let inRange := fun (iso : String) =>
    if key = .ALL then true else isWithinRange gen tz (.str iso) range
  match l.date with
  | none => true
  | some s => if s = "" then true else inRange s

/-- Origin/destination inputs of `computeRoundTripMilesFlexible`. -/
structure MileageParams where
  homePlaceId : String := ""
  homeAddress : String := ""
  destPlaceId : String := ""
  destAddress : String := ""
deriving DecidableEq, Repr

/-- The DistanceMatrix callback's view of the provider response:
whether `status === "OK"`, and the first element's finite distance in
meters (`none` when absent or non-finite). -/
structure DistanceResult where
  ok : Bool := false
  meters : Option ℚ := none
deriving DecidableEq, Repr

/-- `computeRoundTripMilesFlexible` (Loops.tsx 63-108): `none` when the
Google client is unavailable, when origin or destination is blank, or
when the response has no finite distance; otherwise
`(meters / 1609.344) * 2` (one-way miles times two). -/
def computeRoundTripMilesFlexible (googleLoaded : Bool)
    (p : MileageParams) (resp : DistanceResult) : Option ℚ :=
  if !googleLoaded then none
  else
    let origin := if p.homePlaceId ≠ "" then p.homePlaceId
      else String.mk (jsTrim p.homeAddress.toList)
    let dest := if p.destPlaceId ≠ "" then p.destPlaceId
      else String.mk (jsTrim p.destAddress.toList)
    if origin = "" || dest = "" then none
    else if !resp.ok then none
    else
      match resp.meters with
      | none => none
      | some meters => some (meters / 1609.344 * 2)

/-- The Loops page form state (`Loop` type in Loops.tsx 114-132): all
fields concrete, money as numbers. -/
structure TLoop where
  id : String := ""
  date : String := ""
  course : String := ""
  placeId : String := ""
  loopType : String := "Single"
  bagFee : ℚ := 0
  cashTip : ℚ := 0
  digitalTip : ℚ := 0
  preGrat : ℚ := 0
  reportTime : String := ""
  teeTime : String := ""
  endTime : String := ""
  mileage_miles : ℚ := 0
  mileage_cost : ℚ := 0
deriving DecidableEq, Repr

/-- The pure part of `onSave` (Loops.tsx 333-368): builds `loopToSave`
from the form, the money input strings, the settings rate, a fresh id
and the mileage collaborator's answer (`none` = unavailable / no
result, in which case the form's prior mileage values are kept). -/
def onSaveLoop (form : TLoop)
    (bagFeeStr cashTipStr digitalTipStr preGratStr : String)
    (mileageRate : ℚ) (uidv : String) (computed : Option ℚ) : TLoop :=
  let mileageMiles :=
    match computed with
    | some c => c
    | none => form.mileage_miles
  let mileageCost :=
    match computed with
    | some c => c * mileageRate
    | none => form.mileage_cost
  { form with
    id := if form.id = "" then uidv else form.id
    bagFee := toNumber (if bagFeeStr = "" then "0" else bagFeeStr)
    cashTip := toNumber (if cashTipStr = "" then "0" else cashTipStr)
    digitalTip := toNumber (if digitalTipStr = "" then "0" else digitalTipStr)
    preGrat := toNumber (if preGratStr = "" then "0" else preGratStr)
    mileage_miles := mileageMiles
    mileage_cost := mileageCost }

/-! ## `src/pages/Insights.tsx`: date filter, time parsing, `totals` -/

/-- `toDate` (Insights.tsx 39-43): falsy input is `null`; otherwise
`new Date(value)` (the GENERIC parser, not `parseDateLocal`), with
Invalid Date mapped to `null`. -/
def toDate (gen : String → JsDate) (v : Option String) : Option Int :=
  match v with
  | none => none
  | some s =>
    if s = "" then none
    else
      match jsNewDate gen s with
      | .valid t => some t
      | .invalid => none

/-- The `start` bound Insights computes per range key (Insights.tsx
103-113); there is no `end` bound in this filter. -/
def insightsStart (tz now : Int) : DateRangeKey → Option Int
  | .ALL => none
  | .D7 => some (floorDay tz now - 6 * dayMs)
  | .D14 => some (floorDay tz now - 13 * dayMs)
  | .D30 => some (floorDay tz now - 29 * dayMs)
  | .MTD =>
    let (y, m, _) := localCivil tz now
    some (localMidnight tz (daysFromCivil y m 1))
  | .YTD =>
    let (y, _, _) := localCivil tz now
    some (localMidnight tz (daysFromCivil y 1 1))

/-- The Insights date filter (`byDate`, Insights.tsx 116-122): with no
start everything passes; otherwise `toDate(l.date)` must be non-null and
`>= startOfDay(start)`.  Only the lower bound is checked. -/
def insightsInDateRange (gen : String → JsDate) (tz now : Int)
    (key : DateRangeKey) (l : Loop) : Bool :=
  match insightsStart tz now key with
  | none => true
  | some st =>
    match toDate gen l.date with
    | none => false
    | some d => floorDay tz st ≤ d

/-- `timeToMinutes` (Insights.tsx 46-54): `"HH:MM"`-ish to minutes from
midnight; `null` for falsy input, fewer than two `":"` parts, or
non-finite components. -/
def timeToMinutes (t : Option String) : Option ℚ :=
  match t with
  | none => none
  | some s =>
    if s = "" then none
    else
      match splitOnChar ':' s.toList with
      | p1 :: p2 :: _ =>
        match jsStrToNumberL p1, jsStrToNumberL p2 with
        | some h, some m => some (h * 60 + m)
        | _, _ => none
      | _ => none

/-- On-bag minutes a loop contributes (Insights.tsx 181-188): both tee
and end must parse and `endMin >= teeMin`, else the loop is excluded
(`none`), not zero-filled. -/
def onBagContrib (l : Loop) : Option ℚ :=
  match timeToMinutes l.teeTime, timeToMinutes l.endTime with
  | some teeMin, some endMin =>
    if teeMin ≤ endMin then some (endMin - teeMin) else none
  | _, _ => none

/-- Overall minutes (report to end, Insights.tsx 190-193). -/
def overallContrib (l : Loop) : Option ℚ :=
  match timeToMinutes l.reportTime, timeToMinutes l.endTime with
  | some reportMin, some endMin =>
    if reportMin ≤ endMin then some (endMin - reportMin) else none
  | _, _ => none

/-- Wait minutes (report to tee, Insights.tsx 195-198). -/
def waitContrib (l : Loop) : Option ℚ :=
  match timeToMinutes l.reportTime, timeToMinutes l.teeTime with
  | some reportMin, some teeMin =>
    if reportMin ≤ teeMin then some (teeMin - reportMin) else none
  | _, _ => none

/-- The report shape computed by Insights' `totals` memo.  The
intermediate sums/counts of the source's accumulation loop are exposed
as fields so the claims can speak about them. -/
structure Totals where
  bagFees : ℚ
  cashTips : ℚ
  digitalTips : ℚ
  preGrat : ℚ
  totalIncome : ℚ
  totalLoops : ℕ
  onBagMinutesSum : ℚ
  onBagCount : ℕ
  overallMinutesSum : ℚ
  overallCount : ℕ
  waitMinutesSum : ℚ
  waitCount : ℕ
  paceMinutesSum : ℚ
  paceCount : ℕ
  tipsPct : ℚ
  avgEarningsPerLoop : ℚ
  onBagPerHour : ℚ
  overallPerHour : ℚ
  avgWaitMins : ℚ
  avgPaceMins : ℚ
deriving DecidableEq, Repr

/-- `totals` (Insights.tsx 136-224).  The source's pace accumulators are
updated in lockstep with the on-bag ones (same guard, same increment),
so they are the same sums here. -/
def totals (ls : List Loop) : Totals :=
  let bagFees := (ls.map (fun l => jsNumOr0 l.bagFee)).sum
  let cashTips := (ls.map (fun l => jsNumOr0 l.cashTip)).sum
  let digitalTips := (ls.map (fun l => jsNumOr0 l.digitalTip)).sum
  let preGrat := (ls.map (fun l => jsNumOr0 l.preGrat)).sum
  let totalIncome := bagFees + cashTips + digitalTips + preGrat
  let totalLoops := ls.length
  let tipsTotal := cashTips + digitalTips + preGrat
  let tipsPct := if 0 < totalIncome then tipsTotal / totalIncome * 100 else 0
  let avgEarningsPerLoop :=
    if 0 < totalLoops then totalIncome / (totalLoops : ℚ) else 0
  let onBagMinutesSum := (ls.map (fun l => (onBagContrib l).getD 0)).sum
  let onBagCount := ls.countP (fun l => (onBagContrib l).isSome)
  let overallMinutesSum := (ls.map (fun l => (overallContrib l).getD 0)).sum
  let overallCount := ls.countP (fun l => (overallContrib l).isSome)
  let waitMinutesSum := (ls.map (fun l => (waitContrib l).getD 0)).sum
  let waitCount := ls.countP (fun l => (waitContrib l).isSome)
  let paceMinutesSum := onBagMinutesSum
  let paceCount := onBagCount
  let onBagHours := onBagMinutesSum / 60
  let overallHours := overallMinutesSum / 60
  let onBagPerHour := if 0 < onBagHours then totalIncome / onBagHours else 0
  let overallPerHour := if 0 < overallHours then totalIncome / overallHours else 0
  let avgWaitMins := if 0 < waitCount then waitMinutesSum / (waitCount : ℚ) else 0
  let avgPaceMins := if 0 < paceCount then paceMinutesSum / (paceCount : ℚ) else 0
  { bagFees := bagFees
    cashTips := cashTips
    digitalTips := digitalTips
    preGrat := preGrat
    totalIncome := totalIncome
    totalLoops := totalLoops
    onBagMinutesSum := onBagMinutesSum
    onBagCount := onBagCount
    overallMinutesSum := overallMinutesSum
    overallCount := overallCount
    waitMinutesSum := waitMinutesSum
    waitCount := waitCount
    paceMinutesSum := paceMinutesSum
    paceCount := paceCount
    tipsPct := tipsPct
    avgEarningsPerLoop := avgEarningsPerLoop
    onBagPerHour := onBagPerHour
    overallPerHour := overallPerHour
    avgWaitMins := avgWaitMins
    avgPaceMins := avgPaceMins }

/-! ## `src/pages/Income.tsx`: raw loops, `num`, `normalizeLoop`,
`summarize`, `pct` -/

/-- A raw loop in any of the historical shapes (the `Loop` type of
Income.tsx 5-33; tip-type discriminators are typed as strings there). -/
structure RawLoop where
  id : String := ""
  date : Option String := none
  bagFee : Option JsVal := none
  bag_fee : Option JsVal := none
  tipCash : Option JsVal := none
  tip_cash : Option JsVal := none
  tipDigital : Option JsVal := none
  tip_digital : Option JsVal := none
  tip : Option JsVal := none
  tipAmount : Option JsVal := none
  tipType : Option String := none
  tip_type : Option String := none
  tip_method : Option String := none
  preGrat : Option JsVal := none
  pre_grat : Option JsVal := none
  pregrat : Option JsVal := none
  courseName : Option String := none
  loopType : Option String := none
deriving DecidableEq, Repr

/-- The `replace(/[^0-9.\-]/g, "")` cleanup of Income's `num`. -/
def stripNonNumeric (cs : List Char) : List Char :=
  cs.filter (fun c => c.isDigit || c = '.' || c = '-')

/-- `num` (Income.tsx 45-51): nullish is `0`; a number stays unless
non-finite; anything else is stringified, stripped of non-numeric
characters and parsed, with `0` for `NaN`. -/
def num (v : Option JsVal) : ℚ :=
  match v with
  | none => 0
  | some .null => 0
  | some (.num q) => q
  | some .nan => 0
  | some (.str s) => (jsStrToNumberL (stripNonNumeric s.toList)).getD 0

/-- `const bag = Math.max(0, num(loop.bagFee ?? loop.bag_fee))`. -/
def bagOf (l : RawLoop) : ℚ :=
  max 0 (num (jsCoalesce l.bagFee l.bag_fee))

/-- `const explicitCash = Math.max(0, num(loop.tipCash ?? loop.tip_cash))`. -/
def explicitCashOf (l : RawLoop) : ℚ :=
  max 0 (num (jsCoalesce l.tipCash l.tip_cash))

/-- `const explicitDigital = Math.max(0, num(loop.tipDigital ?? loop.tip_digital))`. -/
def explicitDigitalOf (l : RawLoop) : ℚ :=
  max 0 (num (jsCoalesce l.tipDigital l.tip_digital))

/-- `const hasExplicit = explicitCash > 0 || explicitDigital > 0`. -/
def hasExplicitOf (l : RawLoop) : Bool :=
  decide (0 < explicitCashOf l) || decide (0 < explicitDigitalOf l)

/-- `const singleTip = num(loop.tip ?? loop.tipAmount)`. -/
def singleTipOf (l : RawLoop) : ℚ :=
  num (jsCoalesce l.tip l.tipAmount)

/-- `const method = (loop.tipType ?? loop.tip_type ?? loop.tip_method ??
"").toString().trim().toLowerCase()`. -/
def tipMethodOf (l : RawLoop) : List Char :=
  jsLower (jsTrim
    (strCoalesce l.tipType
      (strCoalesce l.tip_type (strCoalesce l.tip_method ""))).toList)

/-- `method.startsWith(pre)`. -/
def startsWithL (pre cs : List Char) : Bool :=
  pre.isPrefixOf cs

/-- The literal `"cash"` tested by `method.startsWith("cash")`. -/
def preCash : List Char := ['c', 'a', 's', 'h']

/-- The literal `"digit"` tested by `method.startsWith("digit")`. -/
def preDigit : List Char := ['d', 'i', 'g', 'i', 't']

/-- `Math.max(0, num(loop.preGrat ?? loop.pre_grat ?? loop.pregrat))`. -/
def pregratOf (l : RawLoop) : ℚ :=
  max 0 (num (jsCoalesce l.preGrat (jsCoalesce l.pre_grat l.pregrat)))

/-- The canonical loop built by Income's `normalizeLoop`. -/
structure NLoop where
  id : String
  date : JsDate
  bagFee : ℚ
  pregrat : ℚ
  tipCash : ℚ
  tipDigital : ℚ
  courseName : Option String
  loopType : Option String
deriving DecidableEq, Repr

/-- `parseISO` (Income.tsx 42): falsy date means "now". -/
def parseISO (gen : String → JsDate) (nowMs : Int) (s : Option String) : JsDate :=
  match s with
  | none => .valid nowMs
  | some s => if s = "" then .valid nowMs else jsNewDate gen s

/-- The final `cash` of `normalizeLoop` (Income.tsx 61-81): starts as
`explicitCash` and is reassigned to `singleTip` exactly in the
`method.startsWith("cash")` branch of the legacy-tip block. -/
def cashOf (l : RawLoop) : ℚ :=
  if !hasExplicitOf l && decide (0 < singleTipOf l) then
    if startsWithL preCash (tipMethodOf l) then singleTipOf l
    else explicitCashOf l
  else explicitCashOf l

/-- The final `digital` of `normalizeLoop` (Income.tsx 61-81): starts as
`explicitDigital` and is reassigned to `singleTip` in both the
`startsWith("digit")` branch and the default branch of the legacy-tip
block ("default to digital if unspecified"). -/
def digitalOf (l : RawLoop) : ℚ :=
  if !hasExplicitOf l && decide (0 < singleTipOf l) then
    if startsWithL preCash (tipMethodOf l) then explicitDigitalOf l
    else singleTipOf l
  else explicitDigitalOf l

/-- `normalizeLoop` (Income.tsx 53-96).  Explicit non-zero cash/digital
split wins; else a positive legacy single tip is routed by the
discriminator (`startsWith "cash"` / `startsWith "digit"` / default
digital).  The source's local mutation of `cash`/`digital` is expressed
by the pure `cashOf`/`digitalOf` above. -/
def normalizeLoop (gen : String → JsDate) (nowMs : Int) (l : RawLoop) : NLoop :=
  { id := l.id
    date := parseISO gen nowMs l.date
    bagFee := bagOf l
    pregrat := pregratOf l
    tipCash := cashOf l
    tipDigital := digitalOf l
    courseName := l.courseName
    loopType := l.loopType }

/-- The accumulator/result of Income's `summarize` (Income.tsx 135-150). -/
structure Summary where
  bag : ℚ
  pregrat : ℚ
  cash : ℚ
  digital : ℚ
  count : ℕ
  totalIncome : ℚ
  avgPerLoop : ℚ
deriving DecidableEq, Repr

def summarize (ls : List NLoop) : Summary :=
  let bag := (ls.map (fun l => l.bagFee)).sum
  let pregrat := (ls.map (fun l => l.pregrat)).sum
  let cash := (ls.map (fun l => l.tipCash)).sum
  let digital := (ls.map (fun l => l.tipDigital)).sum
  let count := ls.length
  let totalIncome := bag + pregrat + cash + digital
  let avgPerLoop := if count ≠ 0 then totalIncome / (count : ℚ) else 0
  { bag := bag, pregrat := pregrat, cash := cash, digital := digital
    count := count, totalIncome := totalIncome, avgPerLoop := avgPerLoop }

/-- `pct` (Income.tsx 369-370): the category share of total income,
guarded by the truthiness of `sum.totalIncome` (the source renders it
with `toFixed(0)`; the numeric ratio is modelled). -/
def pct (s : Summary) (n : ℚ) : ℚ :=
  if s.totalIncome ≠ 0 then n / s.totalIncome * 100 else 0

/-! ## `src/pages/Home.tsx`: `rangeStart` and its loop filter -/

/-- `rangeStart` (Home.tsx 63-78).  Note `7D/14D/30D` subtract the FULL
`days` (not `days - 1`) before flooring to midnight; `ALL` is
`new Date(0)`. -/
def homeRangeStart (tz : Int) (f : DateRangeKey) (now : Int) : Int :=
  match f with
  | .ALL => 0
  | .YTD =>
    let (y, _, _) := localCivil tz now
    localMidnight tz (daysFromCivil y 1 1)
  | .MTD =>
    let (y, m, _) := localCivil tz now
    localMidnight tz (daysFromCivil y m 1)
  | .D7 => localMidnight tz (localDayNum tz now - 7)
  | .D14 => localMidnight tz (localDayNum tz now - 14)
  | .D30 => localMidnight tz (localDayNum tz now - 30)

/-- Home's `filteredLoops` predicate (Home.tsx 81-87): under `ALL`
everything; else `new Date(l?.date)` (generic parsing) must be valid and
`>= rangeStart`.  No upper bound is checked. -/
def homeLoopIncluded (gen : String → JsDate) (tz : Int)
    (f : DateRangeKey) (now : Int) (l : Loop) : Bool :=
  if f = .ALL then true
  else
    match l.date with
    | none => false
    | some s =>
      match jsNewDate gen s with
      | .invalid => false
      | .valid t => homeRangeStart tz f now ≤ t

/-! ## `src/pages/Expenses.tsx`: the `filtered` memo -/

def pad2 (n : Int) : String :=
  (if n < 10 then "0" else "") ++ toString n

def pad4 (n : Int) : String :=
  (if n < 10 then "000" else if n < 100 then "00" else if n < 1000 then "0" else "")
    ++ toString n

/-- `d.toISOString().slice(0, 10)`: the UTC calendar date of an instant. -/
def isoDateUTC (t : Int) : String :=
  let (y, m, d) := civilFromDays (Int.fdiv t dayMs)
  pad4 y ++ "-" ++ pad2 m ++ "-" ++ pad2 d

/-- JS `a < b` on strings: lexicographic by code unit. -/
def charListLt : List Char → List Char → Bool
  | [], [] => false
  | [], _ :: _ => true
  | _ :: _, [] => false
  | a :: as, b :: bs =>
    if a < b then true
    else if b < a then false
    else charListLt as bs

/-- JS `a <= b` on strings (total order, so `a <= b` is `!(b < a)`). -/
def jsStrLe (a b : String) : Bool :=
  !(charListLt b.toList a.toList)

/-- The `startKey`/`endKey` strings of Expenses' `filtered` memo
(Expenses.tsx 112-116): a `Date` bound renders as its UTC date slice,
and a `null` bound renders as `String(null) = "null"`. -/
def expenseFilterKeys (tz : Int) (key : DateRangeKey) (now : Int) : String × String :=
  let r := getDateRange tz key now
  ((match r.start with
    | some t => isoDateUTC t
    | none => "null"),
   (match r.stop with
    | some t => isoDateUTC t
    | none => "null"))

/-- The Expenses date filter (Expenses.tsx 117-118):
`e.date >= startKey && e.date <= endKey` as string comparisons. -/
def expenseInFilter (tz : Int) (key : DateRangeKey) (now : Int) (e : Expense) : Bool :=
  let (startKey, endKey) := expenseFilterKeys tz key now
  jsStrLe startKey e.date && jsStrLe e.date endKey

/-- An environment whose generic `new Date(string)` rejects everything
(used to instantiate the claims at concrete inputs; no claim below
depends on what the environment does with non-ISO strings). -/
def genInvalid : String → JsDate := fun _ => .invalid

/-! ## Helper lemmas -/

theorem explicitCashOf_nonneg (l : RawLoop) : 0 ≤ explicitCashOf l :=
  le_max_left 0 _

theorem explicitDigitalOf_nonneg (l : RawLoop) : 0 ≤ explicitDigitalOf l :=
  le_max_left 0 _

theorem bagOf_nonneg (l : RawLoop) : 0 ≤ bagOf l :=
  le_max_left 0 _

theorem pregratOf_nonneg (l : RawLoop) : 0 ≤ pregratOf l :=
  le_max_left 0 _

theorem explicit_zero_of_not_has (l : RawLoop) (h : hasExplicitOf l = false) :
    explicitCashOf l = 0 ∧ explicitDigitalOf l = 0 := by
  have h1 : ¬ 0 < explicitCashOf l := by
    intro hc
    simp [hasExplicitOf, decide_eq_true hc] at h
  have h2 : ¬ 0 < explicitDigitalOf l := by
    intro hc
    simp [hasExplicitOf, decide_eq_true hc] at h
  exact ⟨le_antisymm (not_lt.mp h1) (explicitCashOf_nonneg l),
    le_antisymm (not_lt.mp h2) (explicitDigitalOf_nonneg l)⟩

theorem cashOf_nonneg (l : RawLoop) : 0 ≤ cashOf l := by
  unfold cashOf
  split_ifs with h1 h2
  · exact le_of_lt (of_decide_eq_true ((Bool.and_eq_true _ _).mp h1).2)
  · exact explicitCashOf_nonneg l
  · exact explicitCashOf_nonneg l

theorem digitalOf_nonneg (l : RawLoop) : 0 ≤ digitalOf l := by
  unfold digitalOf
  split_ifs with h1 h2
  · exact explicitDigitalOf_nonneg l
  · exact le_of_lt (of_decide_eq_true ((Bool.and_eq_true _ _).mp h1).2)
  · exact explicitDigitalOf_nonneg l

/-! ## The claims -/

/-- C1: for every raw loop, Income's `normalizeLoop` uses an explicit
non-zero cash/digital split as-is; otherwise a positive legacy single
tip is routed entirely to cash when the (trimmed, lowercased)
discriminator starts with "cash", to digital when it starts with
"digit", and to digital when it is absent or unrecognized; in
particular `{tip: 50, tipType: "Cash"}` gives cash 50 / digital 0 and
`{tip: 50, tipType: "unknown"}` gives cash 0 / digital 50. -/
theorem c1_tip_routing (gen : String → JsDate) (nowMs : Int) (l : RawLoop) :
    (hasExplicitOf l = true →
      (normalizeLoop gen nowMs l).tipCash = explicitCashOf l ∧
      (normalizeLoop gen nowMs l).tipDigital = explicitDigitalOf l) ∧
    (hasExplicitOf l = false → 0 < singleTipOf l →
      ((startsWithL preCash (tipMethodOf l) = true →
          (normalizeLoop gen nowMs l).tipCash = singleTipOf l ∧
          (normalizeLoop gen nowMs l).tipDigital = 0) ∧
       (startsWithL preCash (tipMethodOf l) = false →
          startsWithL preDigit (tipMethodOf l) = true →
          (normalizeLoop gen nowMs l).tipCash = 0 ∧
          (normalizeLoop gen nowMs l).tipDigital = singleTipOf l) ∧
       (startsWithL preCash (tipMethodOf l) = false →
          startsWithL preDigit (tipMethodOf l) = false →
          (normalizeLoop gen nowMs l).tipCash = 0 ∧
          (normalizeLoop gen nowMs l).tipDigital = singleTipOf l))) ∧
    (normalizeLoop gen nowMs { tip := some (.num 50), tipType := some "Cash" }).tipCash = 50 ∧
    (normalizeLoop gen nowMs { tip := some (.num 50), tipType := some "Cash" }).tipDigital = 0 ∧
    (normalizeLoop gen nowMs { tip := some (.num 50), tipType := some "unknown" }).tipCash = 0 ∧
    (normalizeLoop gen nowMs { tip := some (.num 50), tipType := some "unknown" }).tipDigital = 50 := by
  refine ⟨?_, ?_, rfl, rfl, rfl, rfl⟩
  · intro h
    simp [normalizeLoop, cashOf, digitalOf, h]
  · intro h hpos
    obtain ⟨hc0, hd0⟩ := explicit_zero_of_not_has l h
    refine ⟨?_, ?_, ?_⟩
    · intro hcash
      simp [normalizeLoop, cashOf, digitalOf, h, hcash, hd0, decide_eq_true hpos]
    · intro hcash hdigit
      simp [normalizeLoop, cashOf, digitalOf, h, hcash, hdigit, hc0, decide_eq_true hpos]
    · intro hcash hdigit
      simp [normalizeLoop, cashOf, digitalOf, h, hcash, hdigit, hc0, decide_eq_true hpos]

/-- Witness for C1 at the two concrete legacy records. -/
theorem c1_tip_routing_witness :
    (normalizeLoop genInvalid 0 { tip := some (.num 50), tipType := some "Cash" }).tipCash = 50 ∧
    (normalizeLoop genInvalid 0 { tip := some (.num 50), tipType := some "Cash" }).tipDigital = 0 ∧
    (normalizeLoop genInvalid 0 { tip := some (.num 50), tipType := some "unknown" }).tipCash = 0 ∧
    (normalizeLoop genInvalid 0 { tip := some (.num 50), tipType := some "unknown" }).tipDigital = 50 := by
  have hc := (c1_tip_routing genInvalid 0
    { tip := some (.num 50), tipType := some "Cash" }).2.1 (by decide) (by decide)
  have hu := (c1_tip_routing genInvalid 0
    { tip := some (.num 50), tipType := some "unknown" }).2.1 (by decide) (by decide)
  exact ⟨(hc.1 (by decide)).1, (hc.1 (by decide)).2,
    (hu.2.2 (by decide) (by decide)).1, (hu.2.2 (by decide) (by decide)).2⟩

theorem isWithinRange_bounded_iff (gen : String → JsDate) (tz rs re : Int)
    (dl : DateLike) :
    isWithinRange gen tz dl ⟨some rs, some re⟩ = true ↔
      ∃ t, parseDateLocal gen tz dl = .valid t ∧ rs ≤ t ∧ t ≤ re := by
  cases h : parseDateLocal gen tz dl with
  | valid d => simp [isWithinRange, h]
  | invalid => simp [isWithinRange, h]

/-- C2 (amended): for a bounded resolved range, the membership test
`isWithinRange` passes a record exactly when `start ≤ parsed(date) ≤ end`
(closed on both sides), so an unparsable date is never in range; but the
Loops page list filter additionally passes every record whose date is
MISSING, so a missing-date record does pass that bounded filter. -/
theorem c2_range_membership (gen : String → JsDate) (tz : Int) :
    (∀ (rs re : Int) (dl : DateLike),
      isWithinRange gen tz dl ⟨some rs, some re⟩ = true ↔
        ∃ t, parseDateLocal gen tz dl = .valid t ∧ rs ≤ t ∧ t ≤ re) ∧
    (∀ (rs re : Int) (dl : DateLike),
      parseDateLocal gen tz dl = .invalid →
      isWithinRange gen tz dl ⟨some rs, some re⟩ = false) ∧
    (∀ (key : DateRangeKey) (now : Int) (l : Loop), l.date = none →
      loopPassesDateFilter gen tz key now l = true) := by
  refine ⟨fun rs re dl => isWithinRange_bounded_iff gen tz rs re dl, ?_, ?_⟩
  · intro rs re dl h
    simp [isWithinRange, h]
  · intro key now l hdate
    simp [loopPassesDateFilter, hdate]

/-- Witness for C2 at concrete bounds, record and range key. -/
theorem c2_range_membership_witness :
    isWithinRange genInvalid 0 (.date (.valid 100)) ⟨some 0, some 86399999⟩ = true ∧
    isWithinRange genInvalid 0 (.str "garbage") ⟨some 0, some 86399999⟩ = false ∧
    loopPassesDateFilter genInvalid 0 .MTD (19792 * 86400000 + 43200000)
      { date := none } = true := by
  refine ⟨?_, ?_, ?_⟩
  · exact ((c2_range_membership genInvalid 0).1 0 86399999 (.date (.valid 100))).mpr
      ⟨100, rfl, by norm_num, by norm_num⟩
  · exact (c2_range_membership genInvalid 0).2.1 0 86399999 (.str "garbage") (by decide)
  · exact (c2_range_membership genInvalid 0).2.2 .MTD (19792 * 86400000 + 43200000)
      { date := none } rfl

/-- C2 counterexample: under the bounded `MTD` window the Loops page
filter passes a record with no date at all, and under the bounded `7D`
window the Insights filter (which checks no upper bound) passes a record
dated far beyond the window's end. -/
theorem c2_counterexample :
    (getDateRange 0 .MTD (19792 * 86400000 + 43200000)).start ≠ none ∧
    loopPassesDateFilter genInvalid 0 .MTD (19792 * 86400000 + 43200000)
      { date := none } = true ∧
    (getDateRange 0 .D7 (19792 * 86400000 + 43200000)).stop = some 1710115199999 ∧
    toDate genInvalid (some "2030-01-01") = some 1893456000000 ∧
    (1710115199999 : Int) < 1893456000000 ∧
    insightsInDateRange genInvalid 0 (19792 * 86400000 + 43200000) .D7
      { date := some "2030-01-01" } = true := by decide

theorem localDayNum_localMidnight_add (tz dn r : Int) (h0 : 0 ≤ r)
    (h1 : r < dayMs) : localDayNum tz (localMidnight tz dn + r) = dn := by
  unfold localDayNum localMidnight
  have he : dn * dayMs - tz + r + tz = r + dn * dayMs := by ring
  rw [he, Int.fdiv_eq_ediv _ (by decide), Int.add_mul_ediv_right _ _ (by decide),
    Int.ediv_eq_zero_of_lt h0 h1]
  ring

/-- C3 (amended): `getDateRange` resolves `7D/14D/30D` as the claim says
(start = today minus N-1 days at local midnight, end = today at
23:59:59.999, an N-calendar-day window; with now on 2024-03-10 a loop
dated 2024-03-04 is within the 7D range and one dated 2024-03-03 is
not); the Home page's `rangeStart`, however, subtracts the FULL N days
before flooring to midnight, so its window spans N+1 calendar days and,
at a non-negative offset, includes 2024-03-03 (see the counterexample). -/
theorem c3_nday_windows (tz now : Int) :
    (getDateRange tz .D7 now =
      ⟨some (floorDay tz now - 6 * dayMs), some (floorDay tz now + (dayMs - 1))⟩) ∧
    (getDateRange tz .D14 now =
      ⟨some (floorDay tz now - 13 * dayMs), some (floorDay tz now + (dayMs - 1))⟩) ∧
    (getDateRange tz .D30 now =
      ⟨some (floorDay tz now - 29 * dayMs), some (floorDay tz now + (dayMs - 1))⟩) ∧
    (localDayNum tz (floorDay tz now - 6 * dayMs) = localDayNum tz now - 6) ∧
    (localDayNum tz (floorDay tz now + (dayMs - 1)) = localDayNum tz now) ∧
    (localDayNum tz now = daysFromCivil 2024 3 10 →
      isWithinRange genInvalid tz (.str "2024-03-04") (getDateRange tz .D7 now) = true ∧
      isWithinRange genInvalid tz (.str "2024-03-03") (getDateRange tz .D7 now) = false) ∧
    (homeRangeStart tz .D7 now = localMidnight tz (localDayNum tz now - 7)) := by
  have hfd : floorDay tz now - 6 * dayMs = localMidnight tz (localDayNum tz now - 6) := by
    unfold floorDay localMidnight
    ring
  refine ⟨rfl, rfl, rfl, ?_, ?_, ?_, rfl⟩
  · rw [hfd]
    simpa using localDayNum_localMidnight_add tz (localDayNum tz now - 6) 0
      (le_refl 0) (by decide)
  · exact localDayNum_localMidnight_add tz (localDayNum tz now) (dayMs - 1)
      (by decide) (by decide)
  · intro h
    have hp4 : parseDateLocal genInvalid tz (.str "2024-03-04") =
        .valid (19786 * dayMs - tz) := rfl
    have hp3 : parseDateLocal genInvalid tz (.str "2024-03-03") =
        .valid (19785 * dayMs - tz) := rfl
    have hnum : localDayNum tz now = 19792 := by
      rw [h]; decide
    have hd : (0 : Int) < dayMs := by decide
    have hrange : getDateRange tz .D7 now =
        ⟨some (19786 * dayMs - tz), some (19792 * dayMs - tz + (dayMs - 1))⟩ := by
      show (⟨some (floorDay tz now - 6 * dayMs),
        some (floorDay tz now + (dayMs - 1))⟩ : DateRange) = _
      unfold floorDay localMidnight
      rw [hnum]
      simp only [DateRange.mk.injEq, Option.some.injEq]
      constructor <;> ring_nf
    constructor
    · rw [hrange]
      refine (isWithinRange_bounded_iff genInvalid tz _ _ _).mpr
        ⟨19786 * dayMs - tz, hp4, le_refl _, by linarith⟩
    · rw [hrange, Bool.eq_false_iff]
      intro hT
      obtain ⟨t, hpt, hlo, _⟩ := (isWithinRange_bounded_iff genInvalid tz _ _ _).mp hT
      rw [hp3] at hpt
      injection hpt with ht
      subst ht
      linarith

/-- Witness for C3 at offset 0 and a concrete noon instant of 2024-03-10. -/
theorem c3_nday_windows_witness :
    isWithinRange genInvalid 0 (.str "2024-03-04")
      (getDateRange 0 .D7 (19792 * 86400000 + 43200000)) = true ∧
    isWithinRange genInvalid 0 (.str "2024-03-03")
      (getDateRange 0 .D7 (19792 * 86400000 + 43200000)) = false := by
  have h := (c3_nday_windows 0 (19792 * 86400000 + 43200000)).2.2.2.2.2.1 (by decide)
  exact ⟨h.1, h.2⟩

/-- C3 counterexample: with now at local noon 2024-03-10 (offset 0), the
Home page's resolved 7D window starts at midnight 2024-03-03 — today
minus 7, not today minus 6 — and its filter therefore includes a loop
dated 2024-03-03, which the claim says is out of range. -/
theorem c3_counterexample :
    homeRangeStart 0 .D7 (19792 * 86400000 + 43200000) = 19785 * 86400000 ∧
    (19785 : Int) * 86400000 = daysFromCivil 2024 3 3 * dayMs ∧
    (19785 : Int) * 86400000 ≠ daysFromCivil 2024 3 4 * dayMs ∧
    homeLoopIncluded genInvalid 0 .D7 (19792 * 86400000 + 43200000)
      { date := some "2024-03-03" } = true := by decide

theorem localDayNum_localNewDate (tz y mIdx d : Int) :
    localDayNum tz (localNewDate tz y mIdx d) = mkDayNum (jsCtorYear y) mIdx d := by
  unfold localDayNum localNewDate localMidnight
  have he : mkDayNum (jsCtorYear y) mIdx d * dayMs - tz + tz =
      mkDayNum (jsCtorYear y) mIdx d * dayMs := by
    ring
  rw [he, Int.mul_fdiv_cancel _ (by decide)]

theorem mkDayNum_eq_daysFromCivil (y m d : Int) (h1 : 1 ≤ m) (h2 : m ≤ 12) :
    mkDayNum y (m - 1) d = daysFromCivil y m d := by
  unfold mkDayNum
  have hmod : Int.emod (m - 1) 12 = (m - 1) % 12 := rfl
  rw [Int.fdiv_eq_ediv _ (by decide), Int.ediv_eq_zero_of_lt (by omega) (by omega),
    hmod, Int.emod_eq_of_lt (by omega) (by omega)]
  have hy : y + 0 = y := by ring
  have hm : m - 1 + 1 = m := by ring
  rw [hy, hm]

/-- C4 (amended): `parseDateLocal` parses an exact `YYYY-MM-DD` string
as a LOCAL calendar date via `new Date(y, m - 1, d)`: for every
time-zone offset the parsed instant's local calendar day equals the
written day whenever the written year is at least 0100, while a written
year 0000-0099 is mapped to `1900 + y` by the `Date` constructor's
two-digit-year rule; every other string falls back to generic parsing.
The Insights page's `toDate`, however, hands even `YYYY-MM-DD` strings
to generic `new Date` parsing, which interprets them as UTC midnight
(see the counterexample). -/
theorem c4_local_date_parsing (gen : String → JsDate) (tz : Int) :
    (∀ (s : String) (a b c d e f g i : Char),
      s.toList = [a, b, c, d, '-', e, f, '-', g, i] →
      a.isDigit = true → b.isDigit = true → c.isDigit = true → d.isDigit = true →
      e.isDigit = true → f.isDigit = true → g.isDigit = true → i.isDigit = true →
      parseDateLocal gen tz (.str s) =
        .valid (localNewDate tz
          (ymdOf.dv a * 1000 + ymdOf.dv b * 100 + ymdOf.dv c * 10 + ymdOf.dv d)
          ((ymdOf.dv e * 10 + ymdOf.dv f) - 1)
          (ymdOf.dv g * 10 + ymdOf.dv i))) ∧
    (∀ y m d : Int, 100 ≤ y → 1 ≤ m → m ≤ 12 →
      localDayNum tz (localNewDate tz y (m - 1) d) = daysFromCivil y m d) ∧
    (∀ y m d : Int, 0 ≤ y → y ≤ 99 → 1 ≤ m → m ≤ 12 →
      localDayNum tz (localNewDate tz y (m - 1) d) = daysFromCivil (1900 + y) m d) ∧
    (∀ s : String, isYMDShape s.toList = false →
      parseDateLocal gen tz (.str s) = gen s) := by
  refine ⟨?_, ?_, ?_, ?_⟩
  · intro s a b c d e f g i hs ha hb hc hd he hf hg hi
    have hs' : s.data = [a, b, c, d, '-', e, f, '-', g, i] := hs
    simp [parseDateLocal, hs, hs', isYMDShape, ymdOf, ha, hb, hc, hd, he, hf, hg, hi]
  · intro y m d h0 h1 h2
    rw [localDayNum_localNewDate]
    have hy : jsCtorYear y = y := if_neg (by omega)
    rw [hy, mkDayNum_eq_daysFromCivil y m d h1 h2]
  · intro y m d h0 h1 hm1 hm2
    rw [localDayNum_localNewDate]
    have hy : jsCtorYear y = 1900 + y := if_pos ⟨h0, h1⟩
    rw [hy, mkDayNum_eq_daysFromCivil (1900 + y) m d hm1 hm2]
  · intro s hs
    have hs' : isYMDShape s.data = false := hs
    simp [parseDateLocal, hs']

/-- Witness for C4: "2024-03-04" parses to local midnight 2024-03-04 at
offset 0 and its written day is recovered; the written year 0050 lands
on 1950 per the constructor's two-digit-year rule; a non-ISO string
falls back to the generic parser. -/
theorem c4_local_date_parsing_witness :
    parseDateLocal genInvalid 0 (.str "2024-03-04") =
      .valid (localNewDate 0 2024 2 4) ∧
    localDayNum 0 (localNewDate 0 2024 (3 - 1) 4) = daysFromCivil 2024 3 4 ∧
    localDayNum 0 (localNewDate 0 50 (3 - 1) 4) = daysFromCivil 1950 3 4 ∧
    parseDateLocal genInvalid 0 (.str "03/04/2024") = genInvalid "03/04/2024" := by
  refine ⟨?_, ?_, ?_, ?_⟩
  · have h := (c4_local_date_parsing genInvalid 0).1 "2024-03-04"
      '2' '0' '2' '4' '0' '3' '0' '4' rfl rfl rfl rfl rfl rfl rfl rfl rfl
    exact h
  · exact (c4_local_date_parsing genInvalid 0).2.1 2024 3 4 (by decide) (by decide)
      (by decide)
  · have h := (c4_local_date_parsing genInvalid 0).2.2.1 50 3 4 (by decide) (by decide)
      (by decide) (by decide)
    simpa using h
  · exact (c4_local_date_parsing genInvalid 0).2.2.2 "03/04/2024" (by decide)

/-- C4 counterexample: the Insights range filter's `toDate` gives
"2024-03-04" to generic parsing, which yields UTC midnight; at offset
UTC-5 that instant's local calendar day is 2024-03-03, not the written
day — and a loop dated "2024-03-01" is dropped from the MTD window on
2024-03-01 itself. -/
theorem c4_counterexample :
    toDate genInvalid (some "2024-03-04") = some (daysFromCivil 2024 3 4 * dayMs) ∧
    localCivil (-18000000) (daysFromCivil 2024 3 4 * dayMs) = (2024, 3, 3) ∧
    ((2024, 3, 3) : Int × Int × Int) ≠ (2024, 3, 4) ∧
    insightsInDateRange genInvalid (-18000000)
      (daysFromCivil 2024 3 1 * dayMs + 43200000 + 18000000) .MTD
      { date := some "2024-03-01" } = false := by decide

/-- C5: `getDateRange` resolves `ALL` to a window with no bounds,
`isWithinRange` then passes everything (even unparsable dates), and the
Loops / Home / Insights filters pass every record under `ALL` — but the
Expenses page's `filtered` memo stringifies the `null` bounds to
`"null"` and compares date strings against them, so under `ALL` it
excludes an expense dated "2024-03-10" (the claim is right and this
code is the slip). -/
theorem c5_all_range_no_bounds :
    getDateRange 0 .ALL (19792 * 86400000 + 43200000) = ⟨none, none⟩ ∧
    isWithinRange genInvalid 0 (.str "not-a-date") ⟨none, none⟩ = true ∧
    isWithinRange genInvalid 0 (.str "2024-03-10") ⟨none, none⟩ = true ∧
    loopPassesDateFilter genInvalid 0 .ALL (19792 * 86400000 + 43200000)
      { date := some "2024-03-10" } = true ∧
    homeLoopIncluded genInvalid 0 .ALL (19792 * 86400000 + 43200000)
      { date := none } = true ∧
    insightsInDateRange genInvalid 0 (19792 * 86400000 + 43200000) .ALL
      { date := none } = true ∧
    expenseFilterKeys 0 .ALL (19792 * 86400000 + 43200000) = ("null", "null") ∧
    expenseInFilter 0 .ALL (19792 * 86400000 + 43200000)
      { date := "2024-03-10" } = false := by decide

/-- C6 counterexample: `loopFromDb` maps a row with `bag_fee = -5` to a
cached loop whose `bagFee` is `-5`, a negative canonical value. -/
theorem c6_counterexample :
    (loopFromDb { bag_fee := some (.num (-5)) }).bagFee = some (.num (-5)) ∧
    ¬ (0 : ℚ) ≤ (-5 : ℚ) := by decide

/-- C6 (amended): Income's `normalizeLoop` coerces negative or
non-numeric monetary input to EXACTLY 0 — whenever the resolved numeric
input of a field is non-positive the canonical value is 0 (never the
absolute value), and every canonical field is `≥ 0`; the DB-row
converters `loopFromDb` / `expenseFromDb`, however, coerce only
NON-NUMERIC input to 0 (`Number(col) || 0`) and pass negative numeric
column values through unchanged. -/
theorem c6_money_coercion (gen : String → JsDate) (nowMs : Int) :
    (∀ l : RawLoop, num (jsCoalesce l.bagFee l.bag_fee) ≤ 0 →
      (normalizeLoop gen nowMs l).bagFee = 0) ∧
    (∀ l : RawLoop, num (jsCoalesce l.preGrat (jsCoalesce l.pre_grat l.pregrat)) ≤ 0 →
      (normalizeLoop gen nowMs l).pregrat = 0) ∧
    (∀ l : RawLoop,
      num (jsCoalesce l.tipCash l.tip_cash) ≤ 0 →
      num (jsCoalesce l.tipDigital l.tip_digital) ≤ 0 →
      singleTipOf l ≤ 0 →
      (normalizeLoop gen nowMs l).tipCash = 0 ∧
      (normalizeLoop gen nowMs l).tipDigital = 0) ∧
    (∀ l : RawLoop,
      0 ≤ (normalizeLoop gen nowMs l).bagFee ∧
      0 ≤ (normalizeLoop gen nowMs l).tipCash ∧
      0 ≤ (normalizeLoop gen nowMs l).tipDigital ∧
      0 ≤ (normalizeLoop gen nowMs l).pregrat) ∧
    (∀ r : DbRow, jsToNumber r.bag_fee = none →
      (loopFromDb r).bagFee = some (.num 0)) ∧
    (∀ (r : DbRow) (q : ℚ), r.bag_fee = some (.num q) →
      (loopFromDb r).bagFee = some (.num q)) ∧
    (∀ (r : DbRow) (q : ℚ), r.mileage_cost = some (.num q) →
      (loopFromDb r).mileage_cost = some (.num q)) ∧
    (∀ (r : ExpRow) (q : ℚ), r.amount = some (.num q) →
      (expenseFromDb r).amount = q) := by
  refine ⟨?_, ?_, ?_, ?_, ?_, ?_, ?_, ?_⟩
  · intro l h
    exact max_eq_left h
  · intro l h
    exact max_eq_left h
  · intro l h1 h2 h3
    have hc : explicitCashOf l = 0 := max_eq_left h1
    have hd : explicitDigitalOf l = 0 := max_eq_left h2
    have hg : decide (0 < singleTipOf l) = false := decide_eq_false (not_lt.mpr h3)
    constructor
    · show cashOf l = 0
      simp [cashOf, hg, hc]
    · show digitalOf l = 0
      simp [digitalOf, hg, hd]
  · intro l
    exact ⟨bagOf_nonneg l, cashOf_nonneg l, digitalOf_nonneg l, pregratOf_nonneg l⟩
  · intro r h
    simp [loopFromDb, jsNumOr0, h]
  · intro r q h
    simp [loopFromDb, jsNumOr0, jsToNumber, h]
  · intro r q h
    simp [loopFromDb, jsNumOr0, jsToNumber, h]
  · intro r q h
    simp [expenseFromDb, jsNumOr0, jsToNumber, h]

/-- Witness for C6 at concrete records: a bag fee written "-7" becomes
exactly 0 (not 7), a non-numeric bag fee becomes 0, a negative legacy
single tip yields 0/0 tips, while the DB converters coerce non-numeric
columns to 0 but let negative numeric columns survive. -/
theorem c6_money_coercion_witness :
    (normalizeLoop genInvalid 0 { bagFee := some (.str "-7") }).bagFee = 0 ∧
    (normalizeLoop genInvalid 0 { bagFee := some (.str "abc") }).bagFee = 0 ∧
    (normalizeLoop genInvalid 0
      { tip := some (.num (-50)), tipType := some "Cash" }).tipCash = 0 ∧
    (normalizeLoop genInvalid 0
      { tip := some (.num (-50)), tipType := some "Cash" }).tipDigital = 0 ∧
    (loopFromDb { bag_fee := some (.str "abc") }).bagFee = some (.num 0) ∧
    (loopFromDb { bag_fee := some (.num (-5)) }).bagFee = some (.num (-5)) ∧
    (expenseFromDb { amount := some (.num (-3)) }).amount = -3 := by
  have h7 : num (jsCoalesce (some (JsVal.str "-7")) none) = -7 := by
    with_unfolding_all rfl
  have habc : num (jsCoalesce (some (JsVal.str "abc")) none) = 0 := by
    with_unfolding_all rfl
  have htips := (c6_money_coercion genInvalid 0).2.2.1
    { tip := some (.num (-50)), tipType := some "Cash" }
    (le_of_eq rfl) (le_of_eq rfl) (by rw [show singleTipOf
      { tip := some (.num (-50)), tipType := some "Cash" } = -50 from rfl]; norm_num)
  refine ⟨?_, ?_, htips.1, htips.2, ?_, ?_, ?_⟩
  · exact (c6_money_coercion genInvalid 0).1 _ (by rw [h7]; norm_num)
  · exact (c6_money_coercion genInvalid 0).1 _ (by rw [habc])
  · exact (c6_money_coercion genInvalid 0).2.2.2.2.1 _ (by decide)
  · exact (c6_money_coercion genInvalid 0).2.2.2.2.2.1 _ _ rfl
  · exact (c6_money_coercion genInvalid 0).2.2.2.2.2.2.2 _ _ rfl

theorem summarize_totalIncome_nonneg (gen : String → JsDate) (nowMs : Int)
    (raws : List RawLoop) :
    0 ≤ (summarize (raws.map (normalizeLoop gen nowMs))).totalIncome := by
  have hmem : ∀ (f : NLoop → ℚ), (∀ r : RawLoop, 0 ≤ f (normalizeLoop gen nowMs r)) →
      0 ≤ ((raws.map (normalizeLoop gen nowMs)).map f).sum := by
    intro f hf
    refine List.sum_nonneg ?_
    intro x hx
    simp only [List.map_map, List.mem_map] at hx
    obtain ⟨r, _, rfl⟩ := hx
    exact hf r
  have hb := hmem (fun l => l.bagFee) (fun r => bagOf_nonneg r)
  have hp := hmem (fun l => l.pregrat) (fun r => pregratOf_nonneg r)
  have hcsh := hmem (fun l => l.tipCash) (fun r => cashOf_nonneg r)
  have hdig := hmem (fun l => l.tipDigital) (fun r => digitalOf_nonneg r)
  exact add_nonneg (add_nonneg (add_nonneg hb hp) hcsh) hdig

/-- C7: every reported ratio — Insights' `tipsPct` (whose numerator
excludes bag fees), `avgEarningsPerLoop`, both `$ / hour` metrics, the
wait/pace averages, and Income's category-share `pct` — evaluates to
exactly 0 when its denominator is zero or non-positive or the record
set is empty; in the rational model no division can produce NaN or
Infinity and each division site is guarded. -/
theorem c7_division_safety :
    (∀ ls : List Loop, (totals ls).totalIncome ≤ 0 → (totals ls).tipsPct = 0) ∧
    (∀ ls : List Loop, (totals ls).onBagMinutesSum ≤ 0 → (totals ls).onBagPerHour = 0) ∧
    (∀ ls : List Loop, (totals ls).overallMinutesSum ≤ 0 → (totals ls).overallPerHour = 0) ∧
    (∀ ls : List Loop, (totals ls).waitCount = 0 → (totals ls).avgWaitMins = 0) ∧
    (∀ ls : List Loop, (totals ls).paceCount = 0 → (totals ls).avgPaceMins = 0) ∧
    (∀ ls : List Loop, ls.length = 0 → (totals ls).avgEarningsPerLoop = 0) ∧
    ((totals []).tipsPct = 0 ∧ (totals []).avgEarningsPerLoop = 0 ∧
      (totals []).onBagPerHour = 0 ∧ (totals []).overallPerHour = 0 ∧
      (totals []).avgWaitMins = 0 ∧ (totals []).avgPaceMins = 0) ∧
    (∀ (gen : String → JsDate) (nowMs : Int) (raws : List RawLoop) (n : ℚ),
      (summarize (raws.map (normalizeLoop gen nowMs))).totalIncome ≤ 0 →
      pct (summarize (raws.map (normalizeLoop gen nowMs))) n = 0) ∧
    (∀ (gen : String → JsDate) (nowMs : Int) (raws : List RawLoop),
      raws = [] → (summarize (raws.map (normalizeLoop gen nowMs))).avgPerLoop = 0) := by
  refine ⟨?_, ?_, ?_, ?_, ?_, ?_, by simp [totals], ?_, ?_⟩
  · intro ls h
    exact if_neg (not_lt.mpr h)
  · intro ls h
    have h60 : (totals ls).onBagMinutesSum / 60 ≤ 0 :=
      div_nonpos_iff.mpr (Or.inr ⟨h, by norm_num⟩)
    exact if_neg (not_lt.mpr h60)
  · intro ls h
    have h60 : (totals ls).overallMinutesSum / 60 ≤ 0 :=
      div_nonpos_iff.mpr (Or.inr ⟨h, by norm_num⟩)
    exact if_neg (not_lt.mpr h60)
  · intro ls h
    have h0 : ¬ 0 < (totals ls).waitCount := by omega
    exact if_neg h0
  · intro ls h
    have h0 : ¬ 0 < (totals ls).paceCount := by omega
    exact if_neg h0
  · intro ls h
    have h' : (totals ls).totalLoops = 0 := h
    have h0 : ¬ 0 < (totals ls).totalLoops := by omega
    exact if_neg h0
  · intro gen nowMs raws n h
    have h0 := summarize_totalIncome_nonneg gen nowMs raws
    have he : (summarize (raws.map (normalizeLoop gen nowMs))).totalIncome = 0 :=
      le_antisymm h h0
    simp [pct, he]
  · intro gen nowMs raws h
    subst h
    simp [summarize]

/-- Witness for C7 over the empty record set and a zero-income list. -/
theorem c7_division_safety_witness :
    (totals []).tipsPct = 0 ∧
    (totals []).onBagPerHour = 0 ∧
    (totals []).avgEarningsPerLoop = 0 ∧
    pct (summarize (([] : List RawLoop).map (normalizeLoop genInvalid 0))) 5 = 0 := by
  refine ⟨c7_division_safety.1 [] (by simp [totals]),
    c7_division_safety.2.1 [] (by simp [totals]),
    c7_division_safety.2.2.2.2.2.1 [] rfl,
    c7_division_safety.2.2.2.2.2.2.2.1 genInvalid 0 [] 5 (by simp [summarize])⟩

/-- C8: each time metric counts a loop only when both required clock
times parse and the later one is not earlier than the former; a failing
loop is excluded from that metric's sum, count and average (not
zero-filled) — concretely, tee "09:00" with end "08:30" contributes
nothing to the on-bag/pace sums, counts or averages. -/
theorem c8_time_metric_exclusion :
    (∀ l : Loop, (onBagContrib l).isSome = true ↔
      ∃ teeMin endMin, timeToMinutes l.teeTime = some teeMin ∧
        timeToMinutes l.endTime = some endMin ∧ teeMin ≤ endMin) ∧
    (∀ l : Loop, (overallContrib l).isSome = true ↔
      ∃ reportMin endMin, timeToMinutes l.reportTime = some reportMin ∧
        timeToMinutes l.endTime = some endMin ∧ reportMin ≤ endMin) ∧
    (∀ l : Loop, (waitContrib l).isSome = true ↔
      ∃ reportMin teeMin, timeToMinutes l.reportTime = some reportMin ∧
        timeToMinutes l.teeTime = some teeMin ∧ reportMin ≤ teeMin) ∧
    (∀ (l : Loop) (ls : List Loop), onBagContrib l = none →
      (totals (l :: ls)).onBagMinutesSum = (totals ls).onBagMinutesSum ∧
      (totals (l :: ls)).onBagCount = (totals ls).onBagCount ∧
      (totals (l :: ls)).paceMinutesSum = (totals ls).paceMinutesSum ∧
      (totals (l :: ls)).paceCount = (totals ls).paceCount ∧
      (totals (l :: ls)).avgPaceMins = (totals ls).avgPaceMins) ∧
    (∀ (l : Loop) (ls : List Loop) (dd : ℚ), onBagContrib l = some dd →
      (totals (l :: ls)).onBagMinutesSum = dd + (totals ls).onBagMinutesSum ∧
      (totals (l :: ls)).onBagCount = (totals ls).onBagCount + 1) ∧
    (∀ (l : Loop) (ls : List Loop), overallContrib l = none →
      (totals (l :: ls)).overallMinutesSum = (totals ls).overallMinutesSum ∧
      (totals (l :: ls)).overallCount = (totals ls).overallCount) ∧
    (∀ (l : Loop) (ls : List Loop), waitContrib l = none →
      (totals (l :: ls)).waitMinutesSum = (totals ls).waitMinutesSum ∧
      (totals (l :: ls)).waitCount = (totals ls).waitCount ∧
      (totals (l :: ls)).avgWaitMins = (totals ls).avgWaitMins) ∧
    onBagContrib { teeTime := some "09:00", endTime := some "08:30" } = none := by
  refine ⟨?_, ?_, ?_, ?_, ?_, ?_, ?_, by with_unfolding_all rfl⟩
  · intro l
    cases h1 : timeToMinutes l.teeTime <;> cases h2 : timeToMinutes l.endTime <;>
      simp [onBagContrib, h1, h2]
  · intro l
    cases h1 : timeToMinutes l.reportTime <;> cases h2 : timeToMinutes l.endTime <;>
      simp [overallContrib, h1, h2]
  · intro l
    cases h1 : timeToMinutes l.reportTime <;> cases h2 : timeToMinutes l.teeTime <;>
      simp [waitContrib, h1, h2]
  · intro l ls h
    refine ⟨by simp [totals, h], by simp [totals, List.countP_cons, h], by simp [totals, h],
      by simp [totals, List.countP_cons, h], by simp [totals, List.countP_cons, h]⟩
  · intro l ls dd h
    exact ⟨by simp [totals, h], by simp [totals, List.countP_cons, h]⟩
  · intro l ls h
    exact ⟨by simp [totals, h], by simp [totals, List.countP_cons, h]⟩
  · intro l ls h
    refine ⟨by simp [totals, h], by simp [totals, List.countP_cons, h],
      by simp [totals, List.countP_cons, h]⟩

/-- Witness for C8: the tee-09:00 / end-08:30 loop leaves every on-bag
and pace figure of a singleton report identical to the empty report. -/
theorem c8_time_metric_exclusion_witness :
    (totals [{ teeTime := some "09:00", endTime := some "08:30" }]).onBagCount =
      (totals []).onBagCount ∧
    (totals [{ teeTime := some "09:00", endTime := some "08:30" }]).onBagMinutesSum =
      (totals []).onBagMinutesSum ∧
    (totals [{ teeTime := some "09:00", endTime := some "08:30" }]).avgPaceMins =
      (totals []).avgPaceMins := by
  have h := c8_time_metric_exclusion.2.2.2.1
    { teeTime := some "09:00", endTime := some "08:30" } [] (by with_unfolding_all rfl)
  exact ⟨h.2.1, h.1, h.2.2.2.2⟩

/-- C9: a loop save computes mileage as round-trip distance (one-way
miles times two) and cost as that distance times the configured rate;
when the collaborator is unavailable (Google client missing, blank
origin/destination, failed status or no finite distance) the loop's
prior `mileage_miles`/`mileage_cost` are preserved unchanged and every
other field of the saved loop is unaffected by the mileage step. -/
theorem c9_mileage_save :
    (∀ (form : TLoop) (b c dd p : String) (rate : ℚ) (uidv : String),
      (onSaveLoop form b c dd p rate uidv none).mileage_miles = form.mileage_miles ∧
      (onSaveLoop form b c dd p rate uidv none).mileage_cost = form.mileage_cost) ∧
    (∀ (form : TLoop) (b c dd p : String) (rate : ℚ) (uidv : String) (cv : ℚ),
      (onSaveLoop form b c dd p rate uidv (some cv)).mileage_miles = cv ∧
      (onSaveLoop form b c dd p rate uidv (some cv)).mileage_cost = cv * rate) ∧
    (∀ (form : TLoop) (b c dd p : String) (rate : ℚ) (uidv : String)
        (computed : Option ℚ),
      (onSaveLoop form b c dd p rate uidv computed).date = form.date ∧
      (onSaveLoop form b c dd p rate uidv computed).course = form.course ∧
      (onSaveLoop form b c dd p rate uidv computed).placeId = form.placeId ∧
      (onSaveLoop form b c dd p rate uidv computed).loopType = form.loopType ∧
      (onSaveLoop form b c dd p rate uidv computed).reportTime = form.reportTime ∧
      (onSaveLoop form b c dd p rate uidv computed).teeTime = form.teeTime ∧
      (onSaveLoop form b c dd p rate uidv computed).endTime = form.endTime ∧
      (onSaveLoop form b c dd p rate uidv computed).bagFee =
        toNumber (if b = "" then "0" else b) ∧
      (onSaveLoop form b c dd p rate uidv computed).cashTip =
        toNumber (if c = "" then "0" else c) ∧
      (onSaveLoop form b c dd p rate uidv computed).digitalTip =
        toNumber (if dd = "" then "0" else dd) ∧
      (onSaveLoop form b c dd p rate uidv computed).preGrat =
        toNumber (if p = "" then "0" else p)) ∧
    (∀ (pm : MileageParams) (resp : DistanceResult),
      computeRoundTripMilesFlexible false pm resp = none) ∧
    (∀ (pm : MileageParams) (meters : ℚ),
      pm.homePlaceId ≠ "" → pm.destPlaceId ≠ "" →
      computeRoundTripMilesFlexible true pm ⟨true, some meters⟩ =
        some (meters / 1609.344 * 2)) ∧
    (∀ (pm : MileageParams) (meters : Option ℚ),
      computeRoundTripMilesFlexible true pm ⟨false, meters⟩ = none) ∧
    (∀ pm : MileageParams,
      computeRoundTripMilesFlexible true pm ⟨true, none⟩ = none) := by
  refine ⟨?_, ?_, ?_, ?_, ?_, ?_, ?_⟩
  · intro form b c dd p rate uidv
    exact ⟨rfl, rfl⟩
  · intro form b c dd p rate uidv cv
    exact ⟨rfl, rfl⟩
  · intro form b c dd p rate uidv computed
    exact ⟨rfl, rfl, rfl, rfl, rfl, rfl, rfl, rfl, rfl, rfl, rfl⟩
  · intro pm resp
    rfl
  · intro pm meters h1 h2
    simp [computeRoundTripMilesFlexible, h1, h2]
  · intro pm meters
    simp [computeRoundTripMilesFlexible]
  · intro pm
    simp [computeRoundTripMilesFlexible]

/-- Witness for C9 at a concrete form and provider response. -/
theorem c9_mileage_save_witness :
    (onSaveLoop { mileage_miles := 12, mileage_cost := 8 } "" "" "" "" (0.67 : ℚ)
      "id1" none).mileage_miles = 12 ∧
    (onSaveLoop { mileage_miles := 12, mileage_cost := 8 } "" "" "" "" (0.67 : ℚ)
      "id1" none).mileage_cost = 8 ∧
    computeRoundTripMilesFlexible true
      { homePlaceId := "ph", destPlaceId := "pd" } ⟨true, some 1609.344⟩ =
      some (1609.344 / 1609.344 * 2) := by
  refine ⟨?_, ?_, ?_⟩
  · exact (c9_mileage_save.1 { mileage_miles := 12, mileage_cost := 8 }
      "" "" "" "" (0.67 : ℚ) "id1").1
  · exact (c9_mileage_save.1 { mileage_miles := 12, mileage_cost := 8 }
      "" "" "" "" (0.67 : ℚ) "id1").2
  · exact c9_mileage_save.2.2.2.2.1 { homePlaceId := "ph", destPlaceId := "pd" }
      1609.344 (by decide) (by decide)

/-- C10: `loopFromDb` derives `cashTip` solely from the `cash_tip`
column and `digitalTip` solely from `digital_tip` (`Number(col)` with 0
fallback); the legacy single-tip columns are ignored entirely, so a row
carrying only a legacy tip enters the cache with both tips 0. -/
theorem c10_cache_tips_from_columns :
    (∀ (r : DbRow) (v1 v2 v3 v4 : Option JsVal),
      loopFromDb { r with tip := v1, tipAmount := v2, tipType := v3, tip_method := v4 } =
        loopFromDb r) ∧
    (∀ r : DbRow,
      (loopFromDb r).cashTip = some (.num ((jsToNumber r.cash_tip).getD 0)) ∧
      (loopFromDb r).digitalTip = some (.num ((jsToNumber r.digital_tip).getD 0))) ∧
    (∀ r : DbRow, r.cash_tip = none → r.digital_tip = none →
      (loopFromDb r).cashTip = some (.num 0) ∧
      (loopFromDb r).digitalTip = some (.num 0)) := by
  refine ⟨?_, ?_, ?_⟩
  · intro r v1 v2 v3 v4
    rfl
  · intro r
    exact ⟨rfl, rfl⟩
  · intro r h1 h2
    simp [loopFromDb, jsNumOr0, jsToNumber, h1, h2]

/-- Witness for C10: a row holding only the legacy `tip`/`tipType` pair
enters the cache with zero cash and digital tips. -/
theorem c10_cache_tips_from_columns_witness :
    (loopFromDb { tip := some (.num 50), tipType := some (.str "Cash") }).cashTip =
      some (.num 0) ∧
    (loopFromDb { tip := some (.num 50), tipType := some (.str "Cash") }).digitalTip =
      some (.num 0) :=
  c10_cache_tips_from_columns.2.2
    { tip := some (.num 50), tipType := some (.str "Cash") } rfl rfl

end LoopLedger
